import Mathlib

/-!
Verification of the client-side drag guard in `web_static/index.js`.

The script registers, via `htmx.onLoad`, a single listener on the document
body for the `htmx:sseBeforeMessage` event.  The listener calls
`event.preventDefault()` exactly when
`event.target.querySelector("input[type=range][data-dragging=true]")`
returns a non-null element, i.e. when some strict descendant of the event
target is a range input whose `data-dragging` attribute equals the string
`"true"`.

The DOM fragment reachable from the event target is modelled as a finite
tree of elements; `querySelector` is the document-order (pre-order) search
over strict descendants, as in the DOM standard; the event carries its
target and a `defaultPrevented` flag that `preventDefault` sets.
-/

/-- A DOM element: tag name, attribute list (name/value pairs, first
occurrence wins on lookup), and child elements in document order. -/
inductive Element : Type where
  | mk (tag : String) (attrs : List (String × String)) (children : List Element)

/-- Tag name of an element. -/
def Element.tag : Element → String
  | .mk t _ _ => t

/-- Attribute list of an element. -/
def Element.attrs : Element → List (String × String)
  | .mk _ a _ => a

/-- Child list of an element. -/
def Element.children : Element → List Element
  | .mk _ _ cs => cs

/-- DOM `getAttribute`: the value of the first attribute with the given
name, or `none` when the attribute is absent. -/
def Element.getAttribute (e : Element) (name : String) : Option String :=
  (e.attrs.find? (fun p => p.1 == name)).map Prod.snd

/-- The predicate denoted by the CSS selector
`input[type=range][data-dragging=true]` used in `index.js`: an `input`
element whose `type` attribute is `range` and whose `data-dragging`
attribute is exactly the string `true`. -/
def matchesDragSelector (e : Element) : Bool :=
  e.tag == "input" && e.getAttribute "type" == some "range"
    && e.getAttribute "data-dragging" == some "true"

mutual

/-- First element matching `p` in the subtree rooted at `e` (the root
included), in document order. -/
def findFirst (p : Element → Bool) : Element → Option Element
  | .mk t a cs =>
    if p (.mk t a cs) then some (.mk t a cs) else findFirstList p cs

/-- First element matching `p` in a forest, in document order. -/
def findFirstList (p : Element → Bool) : List Element → Option Element
  | [] => none
  | c :: cs =>
    match findFirst p c with
    | some e => some e
    | none => findFirstList p cs

end

/-- DOM `Element.querySelector`: the first strict descendant of `e`
matching `p` in document order (`e` itself is never considered). -/
def Element.querySelector (e : Element) (p : Element → Bool) : Option Element :=
  findFirstList p e.children

mutual

/-- The subtree rooted at `e` (root first), in document order. -/
def descSelf : Element → List Element
  | .mk t a cs => .mk t a cs :: descList cs
/-- All elements of a forest and their descendants, in document order. -/
def descList : List Element → List Element
  | [] => []
  | c :: cs => descSelf c ++ descList cs

end

/-- An `htmx:sseBeforeMessage` event: the target element whose content the
pending live update would replace, and the `defaultPrevented` flag. -/
structure Event where
  target : Element
  defaultPrevented : Bool

/-- DOM `Event.preventDefault`: sets the `defaultPrevented` flag. -/
def Event.preventDefault (ev : Event) : Event :=
  { ev with defaultPrevented := true }

/-- The anonymous listener of `index.js` lines 2-6: suppress the update
(call `preventDefault`) exactly when the target has a strict descendant
matching `input[type=range][data-dragging=true]`. -/
def sseBeforeMessageHandler (ev : Event) : Event :=
  if (ev.target.querySelector matchesDragSelector).isSome then
    ev.preventDefault
  else
    ev

/-- Listeners attached to the document body are modelled as the list of
their handler functions, in attachment order. -/
abbrev EventListener : Type := Event → Event

/-- The anonymous callback passed to `htmx.onLoad` (lines 1-7): one
`addEventListener` call appending the sse listener to the body's
listener list. -/
def onLoadCallback (bodyListeners : List EventListener) : List EventListener :=
  bodyListeners ++ [sseBeforeMessageHandler]

/-- The script's top level runs exactly one statement, a single
`htmx.onLoad(...)` call, so exactly one load callback is registered. -/
def registeredOnLoadCallbacks : List (List EventListener → List EventListener) :=
  [onLoadCallback]

/-- Page load: starting from a body with no listeners, the host runtime
invokes each registered load callback once. -/
def bodyListenersAfterPageLoad : List EventListener :=
  registeredOnLoadCallbacks.foldl (fun ls f => f ls) []

/-- A range input currently marked as being dragged. -/
def draggingRangeInput : Element :=
  .mk "input" [("type", "range"), ("data-dragging", "true")] []

/-- A region containing one range input whose `data-dragging` attribute is
present with value `v`. -/
def sampleRegionWith (v : String) : Element :=
  .mk "div" [("id", "volume")]
    [.mk "input" [("type", "range"), ("data-dragging", v)] []]

/-- A region containing no range input at all. -/
def plainRegion : Element :=
  .mk "div" [("id", "status")] [.mk "p" [] [], .mk "input" [("type", "text")] []]

mutual

/-- Document-order search over a subtree agrees with `List.find?` over the
pre-order listing of the subtree. -/
theorem findFirst_eq_find? (p : Element → Bool) :
    ∀ e : Element, findFirst p e = (descSelf e).find? p
  | .mk t a cs => by
    simp only [findFirst, descSelf]
    by_cases hp : p (Element.mk t a cs)
    · simp [hp]
    · simp [hp, findFirstList_eq_find? p cs]

/-- Document-order search over a forest agrees with `List.find?` over the
pre-order listing of the forest. -/
theorem findFirstList_eq_find? (p : Element → Bool) :
    ∀ cs : List Element, findFirstList p cs = (descList cs).find? p
  | [] => by simp [findFirstList, descList]
  | c :: cs => by
    simp only [findFirstList, descList, List.find?_append,
      ← findFirst_eq_find? p c, ← findFirstList_eq_find? p cs]
    cases hc : findFirst p c <;> simp [hc]

end

/-- Unfolding of the selector predicate into its three conditions. -/
theorem matchesDragSelector_iff (e : Element) :
    matchesDragSelector e = true ↔
      e.tag = "input" ∧ e.getAttribute "type" = some "range" ∧
        e.getAttribute "data-dragging" = some "true" := by
  simp [matchesDragSelector, Bool.and_eq_true, beq_iff_eq, and_assoc]

/-- An element whose `data-dragging` attribute is not the string `true`
never matches the selector. -/
theorem matchesDragSelector_eq_false_of_attr (e : Element)
    (h : e.getAttribute "data-dragging" ≠ some "true") :
    matchesDragSelector e = false := by
  rw [← Bool.not_eq_true, matchesDragSelector_iff]
  rintro ⟨-, -, h3⟩
  exact h h3

/-- When no strict descendant of the target matches the selector, the
handler returns the event unchanged. -/
theorem handler_id_of_no_match (ev : Event)
    (h : ∀ d ∈ descList ev.target.children, matchesDragSelector d = false) :
    sseBeforeMessageHandler ev = ev := by
  have hn : ev.target.querySelector matchesDragSelector = none := by
    rw [Element.querySelector, findFirstList_eq_find?]
    exact List.find?_eq_none.mpr (by simpa using h)
  simp [sseBeforeMessageHandler, hn]

/-- Closed form of the handler: the target is untouched and the
`defaultPrevented` flag is or-ed with the selector decision. -/
theorem sseBeforeMessageHandler_eq (ev : Event) :
    sseBeforeMessageHandler ev =
      ⟨ev.target,
        ev.defaultPrevented || (ev.target.querySelector matchesDragSelector).isSome⟩ := by
  simp only [sseBeforeMessageHandler]
  by_cases hs : (ev.target.querySelector matchesDragSelector).isSome
  · simp [hs, Event.preventDefault]
  · simp only [Bool.not_eq_true] at hs
    simp [hs]

/-- Claim C1: every incoming `htmx:sseBeforeMessage` event whose target
region contains a descendant range input with `data-dragging` set to
`true` is suppressed: the handler calls `preventDefault`. -/
theorem C1_suppressed_when_marked_dragging (ev : Event)
    (h : ∃ d ∈ descList ev.target.children, matchesDragSelector d = true) :
    sseBeforeMessageHandler ev = ev.preventDefault := by
  have hs : (ev.target.querySelector matchesDragSelector).isSome = true := by
    rw [Element.querySelector, findFirstList_eq_find?]
    exact List.find?_isSome.mpr (by simpa using h)
  simp [sseBeforeMessageHandler, hs]

theorem C1_suppressed_when_marked_dragging_witness :
    sseBeforeMessageHandler ⟨Element.mk "div" [] [draggingRangeInput], false⟩ =
      Event.preventDefault ⟨Element.mk "div" [] [draggingRangeInput], false⟩ :=
  C1_suppressed_when_marked_dragging ⟨Element.mk "div" [] [draggingRangeInput], false⟩
    ⟨draggingRangeInput,
      by simp [descList, descSelf, Element.children, draggingRangeInput], by decide⟩

/-- Claim C2: every incoming live-update event whose target region contains
no range input with the drag marker set to `true` proceeds unmodified: the
handler returns the event exactly as it was. -/
theorem C2_proceeds_when_unmarked (ev : Event)
    (h : ∀ d ∈ descList ev.target.children, matchesDragSelector d = false) :
    sseBeforeMessageHandler ev = ev :=
  handler_id_of_no_match ev h

theorem C2_proceeds_when_unmarked_witness :
    sseBeforeMessageHandler ⟨plainRegion, false⟩ = ⟨plainRegion, false⟩ :=
  C2_proceeds_when_unmarked ⟨plainRegion, false⟩ (by decide)

/-- Claim C3: presence of the drag marker attribute alone does not suppress
the update: whenever no descendant carries the value `true` in the marker
attribute (in particular when it is present with a falsy value), the
handler leaves the event untouched. -/
theorem C3_marker_presence_insufficient (ev : Event)
    (h : ∀ d ∈ descList ev.target.children,
      d.getAttribute "data-dragging" ≠ some "true") :
    sseBeforeMessageHandler ev = ev :=
  handler_id_of_no_match ev
    (fun d hd => matchesDragSelector_eq_false_of_attr d (h d hd))

theorem C3_marker_presence_insufficient_witness :
    sseBeforeMessageHandler ⟨sampleRegionWith "false", false⟩ =
      ⟨sampleRegionWith "false", false⟩ :=
  C3_marker_presence_insufficient ⟨sampleRegionWith "false", false⟩ (by decide)

/-- Claim C4: loading the page attaches exactly one listener for the
live-update event to the document body: the single registered load
callback runs once and adds one copy of the handler. -/
theorem C4_single_listener_registered_on_load :
    bodyListenersAfterPageLoad = [sseBeforeMessageHandler] ∧
      bodyListenersAfterPageLoad.length = 1 :=
  ⟨rfl, rfl⟩

/-- Claim C5: the handler's only possible effect is the cancellation
signal: the target subtree (hence every attribute in it) is returned
unchanged, and the outcome is either the unchanged event or the event with
`defaultPrevented` set. -/
theorem C5_frame_only_prevent_default (ev : Event) :
    (sseBeforeMessageHandler ev).target = ev.target ∧
      (sseBeforeMessageHandler ev = ev ∨
        sseBeforeMessageHandler ev = ev.preventDefault) := by
  simp only [sseBeforeMessageHandler]
  by_cases hs : (ev.target.querySelector matchesDragSelector).isSome
  · simp [hs, Event.preventDefault]
  · simp [hs]

/-- Claim C6: the handler has no error path: on every event it returns a
result, and the only non-pass-through outcome is the intentional
suppression. -/
theorem C6_no_error_path (ev : Event) :
    ∃ result : Event, sseBeforeMessageHandler ev = result ∧
      (result = ev ∨ result = ev.preventDefault) := by
  refine ⟨sseBeforeMessageHandler ev, rfl, ?_⟩
  simp only [sseBeforeMessageHandler]
  by_cases hs : (ev.target.querySelector matchesDragSelector).isSome
  · simp [hs]
  · simp [hs]

/-- Claim C7: the guard decides synchronously within the single handler
invocation: its decision is one terminating pass over the finite pre-order
listing of the target's descendants, with no suspension point. -/
theorem C7_synchronous_single_pass (ev : Event) :
    sseBeforeMessageHandler ev =
      (if ((descList ev.target.children).find? matchesDragSelector).isSome then
        ev.preventDefault
      else
        ev) := by
  simp only [sseBeforeMessageHandler, Element.querySelector,
    findFirstList_eq_find?]

/-- Claim C8: the suppression check only examines strict descendants of the
event target: a target that itself matches the selector does not cause
suppression when no strict descendant matches, and the decision is
invariant under the target's own tag and attributes. -/
theorem C8_strict_descendants_only (ev : Event) :
    (matchesDragSelector ev.target = true →
      (∀ d ∈ descList ev.target.children, matchesDragSelector d = false) →
      sseBeforeMessageHandler ev = ev) ∧
    (∀ (t : String) (a : List (String × String)),
      (Element.mk t a ev.target.children).querySelector matchesDragSelector =
        ev.target.querySelector matchesDragSelector) := by
  constructor
  · intro _ h
    exact handler_id_of_no_match ev h
  · intro t a
    rfl

theorem C8_strict_descendants_only_witness :
    sseBeforeMessageHandler ⟨draggingRangeInput, false⟩ =
      ⟨draggingRangeInput, false⟩ :=
  (C8_strict_descendants_only ⟨draggingRangeInput, false⟩).1 (by decide) (by decide)

/-- Claim C9: suppression requires the marker value to be exactly the
string `true`: the selector matches only elements whose `data-dragging`
attribute equals `true`, and a region whose sole range input carries any
other value (for example `True`, `1`, `yes` or the empty string) is not
suppressed. -/
theorem C9_requires_exact_true_value :
    (∀ e : Element, matchesDragSelector e = true ↔
      (e.tag = "input" ∧ e.getAttribute "type" = some "range" ∧
        e.getAttribute "data-dragging" = some "true")) ∧
    (∀ (v : String) (pd : Bool), v ≠ "true" →
      sseBeforeMessageHandler ⟨sampleRegionWith v, pd⟩ =
        ⟨sampleRegionWith v, pd⟩) := by
  constructor
  · exact matchesDragSelector_iff
  · intro v pd hv
    apply handler_id_of_no_match
    intro d hd
    have hd' : d = Element.mk "input" [("type", "range"), ("data-dragging", v)] [] := by
      simpa [sampleRegionWith, Element.children, descList, descSelf] using hd
    subst hd'
    exact matchesDragSelector_eq_false_of_attr _
      (fun hcontra => hv (Option.some.inj (show some v = some "true" from hcontra)))

theorem C9_requires_exact_true_value_witness :
    sseBeforeMessageHandler ⟨sampleRegionWith "True", false⟩ =
      ⟨sampleRegionWith "True", false⟩ :=
  C9_requires_exact_true_value.2 "True" false (by decide)

/-- Claim C10: the handler is deterministic and its suppress-or-proceed
decision depends only on the target subtree: two invocations over the same
target compute the very same decision, namely whether the pre-order search
of that subtree finds a marked range input. -/
theorem C10_deterministic_decision (ev₁ ev₂ : Event) (h : ev₁.target = ev₂.target) :
    sseBeforeMessageHandler ev₁ =
      ⟨ev₁.target,
        ev₁.defaultPrevented || (ev₁.target.querySelector matchesDragSelector).isSome⟩ ∧
    sseBeforeMessageHandler ev₂ =
      ⟨ev₂.target,
        ev₂.defaultPrevented || (ev₁.target.querySelector matchesDragSelector).isSome⟩ := by
  constructor
  · exact sseBeforeMessageHandler_eq ev₁
  · rw [h]
    exact sseBeforeMessageHandler_eq ev₂

theorem C10_deterministic_decision_witness :
    sseBeforeMessageHandler ⟨sampleRegionWith "true", false⟩ =
      ⟨sampleRegionWith "true",
        false || ((sampleRegionWith "true").querySelector matchesDragSelector).isSome⟩ ∧
    sseBeforeMessageHandler ⟨sampleRegionWith "true", true⟩ =
      ⟨sampleRegionWith "true",
        true || ((sampleRegionWith "true").querySelector matchesDragSelector).isSome⟩ :=
  C10_deterministic_decision ⟨sampleRegionWith "true", false⟩
    ⟨sampleRegionWith "true", true⟩ rfl
